import Mathlib

/-! Verification of the Cosmic Standoff match engine against its design
specification.  The definitions below are a shallow embedding of the
Python sources (constants.py, cosmic_standoff.py, alien.py, captain.py):
coordinates and distances are integers, moves are the literal strings
the program stores in its turns dictionary, and every use of the random
module is made explicit as a parameter (a rational number for the
random.random draw, index parameters for random.choice). -/

namespace CosmicStandoff

/-! Constants from constants.py (class NumericalConstants).  The Python
class is an IntEnum, so every member value is coerced with int() when
the member is created. -/

namespace NumericalConstants

def MIN_BOARD : Int := 10

def HALF : Int := 2

def UNIT_INC : Int := 1

def UNIT_DEC : Int := 1

def START_VAL : Int := 0

def ZERO_DIST : Int := 0

def LOSE_DIST : Int := 2

def WIN_DIST : Int := 1

/-- NOT_AFRAID_PROBABILITY is written as the literal 0.2 in constants.py,
but the enclosing class is an IntEnum, whose member creation coerces the
value with int(); int(0.2) = 0, so the runtime value of
NumericalConstants.NOT_AFRAID_PROBABILITY.value is the integer 0.  The
random.random draw it is compared against is modelled as a rational. -/
def NOT_AFRAID_PROBABILITY : ℚ := 0

end NumericalConstants

/-! Move strings from constants.py (class Moves, a StrEnum). -/

namespace Moves

def UP : String := "Up"

def DOWN : String := "Down"

def LEFT : String := "Left"

def RIGHT : String := "Right"

def STILL : String := "Still"

end Moves

/-! Character strings from constants.py (class Characters, a StrEnum). -/

namespace Characters

def CAP : String := "Captain"

def ALIEN : String := "Alien"

end Characters

/-- Chars mirrors the keys of the board dictionary in cosmic_standoff.py. -/
inductive Chars where
  | CAP
  | ALIEN
deriving DecidableEq

/-- Coords mirrors the keys of each per-character coordinate dictionary. -/
inductive Coords where
  | X_COORD
  | Y_COORD
deriving DecidableEq

/-- The other participant, used to state frame properties about moves. -/
def other_character : Chars → Chars
  | .CAP => .ALIEN
  | .ALIEN => .CAP

/-- Movements list built in Alien._random: one value per member of Moves. -/
def movements : List String :=
  [Moves.UP, Moves.DOWN, Moves.LEFT, Moves.RIGHT, Moves.STILL]

/-- GameBoard embeds self.board: an (x, y) integer pair per character. -/
structure GameBoard where
  cap_x : Int
  cap_y : Int
  alien_x : Int
  alien_y : Int
deriving DecidableEq

/-- Reading self.board[character][coord]. -/
def GameBoard.get (b : GameBoard) : Chars → Coords → Int
  | .CAP, .X_COORD => b.cap_x
  | .CAP, .Y_COORD => b.cap_y
  | .ALIEN, .X_COORD => b.alien_x
  | .ALIEN, .Y_COORD => b.alien_y

/-- Writing self.board[character][coord] = v. -/
def GameBoard.set (b : GameBoard) : Chars → Coords → Int → GameBoard
  | .CAP, .X_COORD, v => { b with cap_x := v }
  | .CAP, .Y_COORD, v => { b with cap_y := v }
  | .ALIEN, .X_COORD, v => { b with alien_x := v }
  | .ALIEN, .Y_COORD, v => { b with alien_y := v }

/-- CosmicStandoff.update_character_board: applies the recorded move
string of a character to its board position.  The match statement in the
source leaves the board unchanged on Moves.STILL (an intentional no-op)
and on any unexpected string (the default case only logs a warning). -/
def update_character_board (b : GameBoard) (mv : String) (ch : Chars) : GameBoard :=
  match mv with
  | "Up" => b.set ch .Y_COORD (b.get ch .Y_COORD + NumericalConstants.UNIT_INC)
  | "Down" => b.set ch .Y_COORD (b.get ch .Y_COORD - NumericalConstants.UNIT_DEC)
  | "Left" => b.set ch .X_COORD (b.get ch .X_COORD - NumericalConstants.UNIT_DEC)
  | "Right" => b.set ch .X_COORD (b.get ch .X_COORD + NumericalConstants.UNIT_INC)
  | _ => b

/-- CosmicStandoff._get_absolute_distance: abs of the coordinate gap. -/
def get_absolute_distance (b : GameBoard) (axis : Coords) : Int :=
  |b.get .CAP axis - b.get .ALIEN axis|

/-- GameState gathers the mutable attributes of the CosmicStandoff
instance that the match engine reads and writes: the board, the stored
distance dictionary, the board configuration entries the engine uses,
and the turns dictionary. -/
structure GameState where
  board : GameBoard
  x_distance : Int
  y_distance : Int
  board_size : Int
  start_distance : Int
  who_starts : String
  who_last : String
  captain_move : String
  alien_move : String
deriving DecidableEq

/-- CosmicStandoff.update_distance: recomputes both stored distances
from the current board. -/
def update_distance (s : GameState) : GameState :=
  { s with
    x_distance := get_absolute_distance s.board .X_COORD
    y_distance := get_absolute_distance s.board .Y_COORD }

/-- The stored distance dictionary agrees with the board.  This holds
whenever update_distance was the last writer of the distances. -/
def distances_synced (s : GameState) : Prop :=
  s.x_distance = get_absolute_distance s.board .X_COORD ∧
  s.y_distance = get_absolute_distance s.board .Y_COORD

/-- CosmicStandoff.is_turn_possible: all distances strictly positive. -/
def is_turn_possible (s : GameState) : Bool :=
  decide (NumericalConstants.ZERO_DIST < s.x_distance) &&
  decide (NumericalConstants.ZERO_DIST < s.y_distance)

/-- CosmicStandoff._is_game_over: ZERO_DIST is a member of the distance
tuple. -/
def is_game_over (s : GameState) : Bool :=
  decide (NumericalConstants.ZERO_DIST = s.x_distance) ||
  decide (NumericalConstants.ZERO_DIST = s.y_distance)

/-- CosmicStandoff._set_starting_distance: half the board size, with
Python floor division. -/
def set_starting_distance (s : GameState) : GameState :=
  { s with start_distance := Int.fdiv s.board_size NumericalConstants.HALF }

/-- CosmicStandoff._is_valid_starting_distance: both stored distances at
least the starting distance. -/
def is_valid_starting_distance (s : GameState) : Bool :=
  decide (s.start_distance ≤ s.x_distance) &&
  decide (s.start_distance ≤ s.y_distance)

/-- CosmicStandoff._set_random_position: assigns sampled coordinates to
one character, one sample per coordinate. -/
def set_random_position (s : GameState) (ch : Chars) (p : Int × Int) : GameState :=
  { s with board := (s.board.set ch .X_COORD p.1).set ch .Y_COORD p.2 }

/-- CosmicStandoff._set_alien_position: the rejection-sampling loop.
The unbounded Python while loop is given explicit fuel; samples is the
stream of coordinate pairs produced by random.randint and i indexes the
next sample.  A run that exhausts its fuel with the guard still false is
a non-terminating run, modelled as none. -/
def set_alien_position (samples : Nat → Int × Int) : Nat → Nat → GameState → Option GameState
  | 0, _, s => if is_valid_starting_distance s then some s else none
  | fuel + 1, i, s =>
    if is_valid_starting_distance s then some s
    else set_alien_position samples fuel (i + 1)
      (update_distance (set_random_position s .ALIEN (samples i)))

/-- Tier labels the four branches of Alien._decide_move. -/
inductive Tier where
  | win_imminent
  | lose_imminent
  | aggressive_flee
  | default_random
deriving DecidableEq

/-- AlienMovesConditions.WIN_CONDITION from Alien._move_conditions:
WIN_DIST is a member of the distance tuple. -/
def move_conditions_win (xd yd : Int) : Bool :=
  decide (xd = NumericalConstants.WIN_DIST) || decide (yd = NumericalConstants.WIN_DIST)

/-- AlienMovesConditions.CLOSE_TO_LOSE_CONDITION from
Alien._move_conditions: LOSE_DIST is a member of the distance tuple. -/
def move_conditions_lose (xd yd : Int) : Bool :=
  decide (xd = NumericalConstants.LOSE_DIST) || decide (yd = NumericalConstants.LOSE_DIST)

/-- AlienMovesConditions.AGGRESSIVE_FLEE_CONDITION from
Alien._move_conditions: some distance lies strictly between LOSE_DIST
and the starting distance. -/
def move_conditions_aggressive_flee (xd yd sd : Int) : Bool :=
  (decide (NumericalConstants.LOSE_DIST < xd) && decide (xd < sd)) ||
  (decide (NumericalConstants.LOSE_DIST < yd) && decide (yd < sd))

/-- The branch structure of Alien._decide_move, labelled by tier. -/
def decide_tier (xd yd sd : Int) : Tier :=
  if move_conditions_win xd yd then .win_imminent
  else if move_conditions_lose xd yd then .lose_imminent
  else if move_conditions_aggressive_flee xd yd sd then .aggressive_flee
  else .default_random

/-- Strategy names the bound methods stored in the lists built by
Alien._alien_moves. -/
inductive Strategy where
  | close_to_win
  | attack
  | chase
  | random
  | flee
  | freeze_move
deriving DecidableEq

/-- AlienMoves keys of the dictionary built by Alien._alien_moves. -/
inductive AlienMoves where
  | RANDOM
  | AFRAID_TO_LOSE
  | NOT_AFRAID_TO_LOSE
  | AGGRESSIVE_FLEE
  | CLOSE_TO_WIN
deriving DecidableEq

/-- Alien._alien_moves: the strategy list stored under each key. -/
def alien_moves : AlienMoves → List Strategy
  | .CLOSE_TO_WIN => [.close_to_win]
  | .NOT_AFRAID_TO_LOSE => [.attack, .chase, .random]
  | .AFRAID_TO_LOSE => [.flee, .freeze_move]
  | .AGGRESSIVE_FLEE => [.attack, .chase, .flee]
  | .RANDOM => [.random]

/-- Alien._select_close_to_lose_move: q is the random.random draw. -/
def select_close_to_lose_move (q : ℚ) : List Strategy :=
  if q ≤ NumericalConstants.NOT_AFRAID_PROBABILITY then alien_moves .NOT_AFRAID_TO_LOSE
  else alien_moves .AFRAID_TO_LOSE

/-- Alien._decide_move: returns the list of candidate strategies. -/
def decide_move (xd yd sd : Int) (q : ℚ) : List Strategy :=
  if move_conditions_win xd yd then alien_moves .CLOSE_TO_WIN
  else if move_conditions_lose xd yd then select_close_to_lose_move q
  else if move_conditions_aggressive_flee xd yd sd then alien_moves .AGGRESSIVE_FLEE
  else alien_moves .RANDOM

/-- AlienRand packages the randomness one Alien half-turn can consume:
the random.random draw of _select_close_to_lose_move, the random.choice
index over the strategy list in _select_move, the random.choice index
over the movements list in _random, and the random.choice between the
two axes in the tie case of _chase (true picks the x axis). -/
structure AlienRand where
  q : ℚ
  strategy_index : Nat
  move_index : Nat
  chase_axis : Bool

/-- The semantics of random.choice over a list: a uniformly distributed
index n selects element n mod length.  The default value is never used
on the non-empty lists the program builds. -/
def choice (l : List Strategy) (n : Nat) : Strategy :=
  l.getD (n % l.length) Strategy.random

/-- Alien._random: random.choice over the movements list. -/
def random_move (n : Nat) : String :=
  movements.getD (n % movements.length) Moves.STILL

/-- Alien._pursue_captain: stores move_neg if the Alien coordinate on
the given axis exceeds the Captain coordinate, move_pos otherwise. -/
def pursue_captain (s : GameState) (move_neg move_pos : String) (coord : Coords) : GameState :=
  { s with alien_move :=
      if s.board.get .ALIEN coord > s.board.get .CAP coord then move_neg else move_pos }

/-- Executes one bound method from the strategy lists.  Each clause
mirrors the corresponding Alien method: _close_to_win checks the y
distance first, _attack maps the Captain move to its opposite (falling
back to _random on Still and only logging on an unexpected string),
_chase follows the larger-distance axis with a random axis on a tie,
_flee repeats the Captain move (random on Still), _freeze_move holds
still, _random picks among the five moves. -/
def run_strategy : Strategy → GameState → AlienRand → GameState
  | .close_to_win, s, _ =>
    if s.y_distance = NumericalConstants.WIN_DIST then
      pursue_captain s Moves.DOWN Moves.UP .Y_COORD
    else if s.x_distance = NumericalConstants.WIN_DIST then
      pursue_captain s Moves.LEFT Moves.RIGHT .X_COORD
    else s
  | .attack, s, r =>
    if s.captain_move = Moves.UP then { s with alien_move := Moves.DOWN }
    else if s.captain_move = Moves.DOWN then { s with alien_move := Moves.UP }
    else if s.captain_move = Moves.LEFT then { s with alien_move := Moves.RIGHT }
    else if s.captain_move = Moves.RIGHT then { s with alien_move := Moves.LEFT }
    else if s.captain_move = Moves.STILL then { s with alien_move := random_move r.move_index }
    else s
  | .chase, s, r =>
    if s.x_distance > s.y_distance then pursue_captain s Moves.LEFT Moves.RIGHT .X_COORD
    else if s.x_distance < s.y_distance then pursue_captain s Moves.DOWN Moves.UP .Y_COORD
    else if r.chase_axis then pursue_captain s Moves.LEFT Moves.RIGHT .X_COORD
    else pursue_captain s Moves.DOWN Moves.UP .Y_COORD
  | .random, s, r => { s with alien_move := random_move r.move_index }
  | .flee, s, r =>
    if s.captain_move ≠ Moves.STILL then { s with alien_move := s.captain_move }
    else { s with alien_move := random_move r.move_index }
  | .freeze_move, s, _ => { s with alien_move := Moves.STILL }

/-- Alien._select_move: picks one strategy at random from the list
returned by _decide_move, runs it, then records the Alien as the last
mover. -/
def select_move (s : GameState) (r : AlienRand) : GameState :=
  let strategies := decide_move s.x_distance s.y_distance s.start_distance r.q
  let s1 := run_strategy (choice strategies r.strategy_index) s r
  { s1 with who_last := Characters.ALIEN }

/-- Captain.captain_turn with _prompt_captain_move inlined: mv is the
validated player input.  The prompt stores the move and the last mover,
then the board is updated with the recorded move and the distances are
recomputed.  Nothing happens when is_turn_possible is false. -/
def captain_turn (s : GameState) (mv : String) : GameState :=
  if is_turn_possible s then
    let s1 := { s with captain_move := mv, who_last := Characters.CAP }
    let s2 := { s1 with board := update_character_board s1.board s1.captain_move .CAP }
    update_distance s2
  else s

/-- Alien.alien_turn: selects a move, updates the board with the
recorded Alien move, recomputes the distances.  Nothing happens when
is_turn_possible is false. -/
def alien_turn (s : GameState) (r : AlienRand) : GameState :=
  if is_turn_possible s then
    let s1 := select_move s r
    let s2 := { s1 with board := update_character_board s1.board s1.alien_move .ALIEN }
    update_distance s2
  else s

/-- CosmicStandoff._handle_turns: both half-turns in starter order; an
unexpected starter string only logs. -/
def handle_turns (s : GameState) (mv : String) (r : AlienRand) : GameState :=
  if s.who_starts = Characters.CAP then alien_turn (captain_turn s mv) r
  else if s.who_starts = Characters.ALIEN then captain_turn (alien_turn s r) mv
  else s

/-- One iteration of the inner while loop of CosmicStandoff.main: run
both half-turns, then report the end of the match (the call of
_end_game_sequence) exactly when _is_game_over returns True. -/
def game_cycle (s : GameState) (mv : String) (r : AlienRand) : GameState × Bool :=
  let s1 := handle_turns s mv r
  (s1, is_game_over s1)

/-! Observable side effects of the shutdown paths in cosmic_standoff.py,
for the claims about interrupt handling and fatal I/O errors. -/

/-- Effect records one observable action of the program: a logging call,
a printed message, a time.sleep pause, a score write by _write_score, or
a process exit carrying the interpreter exit status. -/
inductive Effect where
  | logMsg (msg : String)
  | printMsg (msg : String)
  | sleepPause
  | writeScore
  | exitProcess (status : Nat)
deriving DecidableEq

/-- CosmicStandoff._exit_game: logs and prints the quit message, pauses,
then calls sys.exit() with no argument, which terminates the interpreter
with exit status 0. -/
def exit_game_effects : List Effect :=
  [Effect.logMsg "Exiting the game...",
   Effect.printMsg "\nExiting the game...",
   Effect.sleepPause,
   Effect.exitProcess 0]

/-- The KeyboardInterrupt handler of CosmicStandoff.main: its body is
the single call self._exit_game(). -/
def keyboard_interrupt_effects : List Effect :=
  exit_game_effects

/-- CosmicStandoff._handle_os_error: logs the error, prints the two
user-visible explanation lines, then calls _exit_game. -/
def handle_os_error_effects : List Effect :=
  [Effect.logMsg "Error reading score file",
   Effect.printMsg "An error occurred while reading the score file.",
   Effect.printMsg "Check the file permissions and restart the game."] ++
  exit_game_effects

/-- The statuses of the process exits occurring in an effect trace. -/
def exit_statuses (l : List Effect) : List Nat :=
  l.filterMap fun e =>
    match e with
    | .exitProcess c => some c
    | _ => none

/-! Concrete inputs used by the witness theorems. -/

/-- A fixed bundle of randomness for witnesses. -/
def rand0 : AlienRand :=
  { q := 0, strategy_index := 0, move_index := 0, chase_axis := false }

/-- Captain at (0, 0) and Alien at (0, 1): the win-imminent scenario of
the specification. -/
def stateC2 : GameState :=
  { board := { cap_x := 0, cap_y := 0, alien_x := 0, alien_y := 1 }
    x_distance := 0
    y_distance := 1
    board_size := 10
    start_distance := 5
    who_starts := Characters.CAP
    who_last := ""
    captain_move := Moves.STILL
    alien_move := "" }

/-- Captain at (0, 0) and Alien at (3, 4), Captain starting. -/
def stateC3 : GameState :=
  { board := { cap_x := 0, cap_y := 0, alien_x := 3, alien_y := 4 }
    x_distance := 3
    y_distance := 4
    board_size := 10
    start_distance := 5
    who_starts := Characters.CAP
    who_last := ""
    captain_move := Moves.STILL
    alien_move := "" }

/-- The state entering _set_alien_position: the Captain is placed and
the stored distances still hold their initial value. -/
def stateC6 : GameState :=
  { board := { cap_x := 0, cap_y := 0, alien_x := 0, alien_y := 0 }
    x_distance := 0
    y_distance := 0
    board_size := 10
    start_distance := 5
    who_starts := ""
    who_last := ""
    captain_move := ""
    alien_move := "" }

/-- A sample stream that always proposes the coordinates (7, 9). -/
def samplesC6 : Nat → Int × Int := fun _ => (7, 9)

/-- The state _set_alien_position reaches from stateC6 with samplesC6. -/
def stateC6out : GameState :=
  { board := { cap_x := 0, cap_y := 0, alien_x := 7, alien_y := 9 }
    x_distance := 7
    y_distance := 9
    board_size := 10
    start_distance := 5
    who_starts := ""
    who_last := ""
    captain_move := ""
    alien_move := "" }

/-- A state in the aggressive-flee tier with a valid recorded Captain
move. -/
def stateC10 : GameState :=
  { board := { cap_x := 0, cap_y := 0, alien_x := 3, alien_y := 3 }
    x_distance := 3
    y_distance := 3
    board_size := 10
    start_distance := 5
    who_starts := Characters.CAP
    who_last := ""
    captain_move := Moves.UP
    alien_move := "" }

/-- Decidability of the synchronisation predicate, so that witnesses can
evaluate it on concrete states. -/
instance distances_synced_decidable (s : GameState) : Decidable (distances_synced s) := by
  unfold distances_synced
  infer_instance

/-! Helper lemmas shared between the claim theorems. -/

/-- The element random.choice selects from a non-empty list is a member
of the list. -/
theorem list_getD_mod_mem {α : Type} (l : List α) (n : Nat) (d : α) (h : l ≠ []) :
    l.getD (n % l.length) d ∈ l := by
  have hlen : 0 < l.length := List.length_pos.mpr h
  have hmod : n % l.length < l.length := Nat.mod_lt _ hlen
  rw [List.getD_eq_getElem?_getD, List.getElem?_eq_getElem hmod, Option.getD_some]
  exact List.getElem_mem hmod

theorem choice_mem (l : List Strategy) (n : Nat) (h : l ≠ []) : choice l n ∈ l :=
  list_getD_mod_mem l n Strategy.random h

theorem choice_singleton (a : Strategy) (n : Nat) : choice [a] n = a := by
  simp [choice, Nat.mod_one]

theorem random_move_mem (n : Nat) : random_move n ∈ movements :=
  list_getD_mod_mem movements n Moves.STILL (by decide)

theorem update_distance_synced (s : GameState) : distances_synced (update_distance s) := by
  simp [distances_synced, update_distance]

theorem captain_turn_synced (s : GameState) (mv : String) (h : distances_synced s) :
    distances_synced (captain_turn s mv) := by
  unfold captain_turn
  split_ifs
  · exact update_distance_synced _
  · exact h

theorem alien_turn_synced (s : GameState) (r : AlienRand) (h : distances_synced s) :
    distances_synced (alien_turn s r) := by
  unfold alien_turn
  split_ifs
  · exact update_distance_synced _
  · exact h

theorem synced_nonneg (s : GameState) (h : distances_synced s) :
    0 ≤ s.x_distance ∧ 0 ≤ s.y_distance := by
  refine ⟨?_, ?_⟩
  · rw [h.1]; exact abs_nonneg _
  · rw [h.2]; exact abs_nonneg _

theorem game_over_iff (s : GameState) :
    is_game_over s = true ↔ (s.x_distance = 0 ∨ s.y_distance = 0) := by
  simp only [is_game_over, NumericalConstants.ZERO_DIST, Bool.or_eq_true, decide_eq_true_eq]
  omega

theorem decide_move_win (xd yd sd : Int) (q : ℚ)
    (h : move_conditions_win xd yd = true) :
    decide_move xd yd sd q = [Strategy.close_to_win] := by
  unfold decide_move
  rw [if_pos h]
  rfl

theorem select_move_win (s : GameState) (r : AlienRand)
    (h : move_conditions_win s.x_distance s.y_distance = true) :
    select_move s r =
      { run_strategy .close_to_win s r with who_last := Characters.ALIEN } := by
  unfold select_move
  rw [decide_move_win _ _ _ _ h]
  dsimp only
  rw [choice_singleton]

/-! Claim theorems. -/

/-- C1: For every Alien decision over non-negative x_distance,
y_distance and start_distance, exactly one of the four tiers is
selected, evaluated in fixed priority order: win-imminent when either
axis distance equals 1; otherwise lose-imminent when either axis
distance equals 2; otherwise aggressive-flee when at least one axis
distance lies strictly between 2 and start_distance; otherwise
default. -/
theorem tier_classification_exclusive (xd yd sd : Int)
    (_hx : 0 ≤ xd) (_hy : 0 ≤ yd) (_hs : 0 ≤ sd) :
    (∃! t : Tier, decide_tier xd yd sd = t) ∧
    (decide_tier xd yd sd = Tier.win_imminent ↔ (xd = 1 ∨ yd = 1)) ∧
    (decide_tier xd yd sd = Tier.lose_imminent ↔
      (¬(xd = 1 ∨ yd = 1) ∧ (xd = 2 ∨ yd = 2))) ∧
    (decide_tier xd yd sd = Tier.aggressive_flee ↔
      (¬(xd = 1 ∨ yd = 1) ∧ ¬(xd = 2 ∨ yd = 2) ∧
        ((2 < xd ∧ xd < sd) ∨ (2 < yd ∧ yd < sd)))) ∧
    (decide_tier xd yd sd = Tier.default_random ↔
      (¬(xd = 1 ∨ yd = 1) ∧ ¬(xd = 2 ∨ yd = 2) ∧
        ¬((2 < xd ∧ xd < sd) ∨ (2 < yd ∧ yd < sd)))) := by
  refine ⟨⟨decide_tier xd yd sd, rfl, fun t ht => ht.symm⟩, ?_, ?_, ?_, ?_⟩ <;>
    (unfold decide_tier move_conditions_win move_conditions_lose
      move_conditions_aggressive_flee;
     split_ifs with h1 h2 h3 <;>
       simp_all [NumericalConstants.WIN_DIST, NumericalConstants.LOSE_DIST])

/-- Witness for C1 at the concrete triple (1, 3, 5). -/
theorem tier_classification_exclusive_witness :
    (0 ≤ (1 : Int)) ∧ (0 ≤ (3 : Int)) ∧ (0 ≤ (5 : Int)) ∧
    ((∃! t : Tier, decide_tier 1 3 5 = t) ∧
     (decide_tier 1 3 5 = Tier.win_imminent ↔ ((1 : Int) = 1 ∨ (3 : Int) = 1)) ∧
     (decide_tier 1 3 5 = Tier.lose_imminent ↔
       (¬((1 : Int) = 1 ∨ (3 : Int) = 1) ∧ ((1 : Int) = 2 ∨ (3 : Int) = 2))) ∧
     (decide_tier 1 3 5 = Tier.aggressive_flee ↔
       (¬((1 : Int) = 1 ∨ (3 : Int) = 1) ∧ ¬((1 : Int) = 2 ∨ (3 : Int) = 2) ∧
         ((2 < (1 : Int) ∧ (1 : Int) < 5) ∨ (2 < (3 : Int) ∧ (3 : Int) < 5)))) ∧
     (decide_tier 1 3 5 = Tier.default_random ↔
       (¬((1 : Int) = 1 ∨ (3 : Int) = 1) ∧ ¬((1 : Int) = 2 ∨ (3 : Int) = 2) ∧
         ¬((2 < (1 : Int) ∧ (1 : Int) < 5) ∨ (2 < (3 : Int) ∧ (3 : Int) < 5))))) :=
  ⟨by decide, by decide, by decide,
   tier_classification_exclusive 1 3 5 (by decide) (by decide) (by decide)⟩

/-- C4 counterexample: the KeyboardInterrupt handler of
CosmicStandoff.main performs no score write at all, so the current score
is not flushed to persistent storage before the process exits. -/
theorem interrupt_no_score_flush :
    Effect.writeScore ∉ keyboard_interrupt_effects := by decide

/-- C4 amended: when the process is terminated by KeyboardInterrupt,
the handler prints the exit message and terminates the process with
status 0, and it does not write the score to persistent storage. -/
theorem interrupt_exit_behavior :
    Effect.printMsg "\nExiting the game..." ∈ keyboard_interrupt_effects ∧
    exit_statuses keyboard_interrupt_effects = [0] ∧
    Effect.writeScore ∉ keyboard_interrupt_effects := by decide

/-- C5 counterexample: on an OS-level I/O error while reading the score
file, the only process exit in the resulting effect trace carries status
0 (sys.exit() with no argument), not a non-zero status. -/
theorem os_error_exit_status_zero :
    exit_statuses handle_os_error_effects = [0] := by decide

/-- C5 amended: on an OS-level I/O error while reading the score file,
the program prints a user-visible explanation and the process exits via
sys.exit() with no argument, hence with exit status 0. -/
theorem os_error_behavior :
    Effect.printMsg "An error occurred while reading the score file." ∈
      handle_os_error_effects ∧
    Effect.printMsg "Check the file permissions and restart the game." ∈
      handle_os_error_effects ∧
    exit_statuses handle_os_error_effects = [0] := by decide

/-- C7: evaluation of the code at the failing input.  The runtime value
of NumericalConstants.NOT_AFRAID_PROBABILITY is 0, not the documented
0.2, because IntEnum member creation truncates the literal with int().
Hence a uniform draw of 1/10, which is at most 1/5, selects the afraid
set of strategies, contradicting the claimed not-afraid set. -/
theorem close_to_lose_probability_truncated :
    NumericalConstants.NOT_AFRAID_PROBABILITY = 0 ∧
    ((1 : ℚ)/10 ≤ 1/5) ∧
    select_close_to_lose_move (1/10) = [Strategy.flee, Strategy.freeze_move] ∧
    select_close_to_lose_move (1/10) ≠ [Strategy.attack, Strategy.chase, Strategy.random] := by
  refine ⟨rfl, by norm_num, ?_, ?_⟩ <;>
    rw [select_close_to_lose_move,
      if_neg (by norm_num [NumericalConstants.NOT_AFRAID_PROBABILITY])] <;>
    decide

/-- C8: applying Up and then Down to the same agent returns its
y-coordinate to the original value, applying Left and then Right
returns its x-coordinate to the original value, and Still is a fixed
point leaving both coordinates unchanged. -/
theorem move_round_trip (b : GameBoard) (ch : Chars) :
    (update_character_board (update_character_board b Moves.UP ch) Moves.DOWN ch).get
        ch .Y_COORD = b.get ch .Y_COORD ∧
    (update_character_board (update_character_board b Moves.LEFT ch) Moves.RIGHT ch).get
        ch .X_COORD = b.get ch .X_COORD ∧
    update_character_board b Moves.STILL ch = b := by
  refine ⟨?_, ?_, rfl⟩ <;> cases ch <;>
    simp [update_character_board, GameBoard.get, GameBoard.set, Moves.UP, Moves.DOWN,
      Moves.LEFT, Moves.RIGHT, NumericalConstants.UNIT_INC, NumericalConstants.UNIT_DEC]

/-- C9: applying a move for one character changes at most that
character's single affected coordinate (y by +1 for Up and -1 for Down,
x by -1 for Left and +1 for Right, nothing for Still or any other
string); the moving character's other coordinate and both coordinates
of the other character are unchanged. -/
theorem move_frame_property (b : GameBoard) (mv : String) (ch : Chars) :
    (∀ c, (update_character_board b mv ch).get (other_character ch) c =
      b.get (other_character ch) c) ∧
    (update_character_board b mv ch).get ch .Y_COORD =
      b.get ch .Y_COORD +
        (if mv = Moves.UP then 1 else if mv = Moves.DOWN then -1 else 0) ∧
    (update_character_board b mv ch).get ch .X_COORD =
      b.get ch .X_COORD +
        (if mv = Moves.LEFT then -1 else if mv = Moves.RIGHT then 1 else 0) := by
  unfold update_character_board
  split <;> cases ch <;>
    simp_all [GameBoard.get, GameBoard.set, other_character, Moves.UP, Moves.DOWN,
      Moves.LEFT, Moves.RIGHT, NumericalConstants.UNIT_INC, NumericalConstants.UNIT_DEC] <;>
    first
    | exact ⟨fun c => by cases c <;> rfl, by ring⟩
    | (intro c; cases c <;> rfl)

/-- C2: whenever the Alien decides with either axis distance exactly 1,
the decision is deterministic: the candidate list is the singleton
close-to-win strategy for every random draw, the strategy leaves the
board untouched, and the recorded Alien move walks along the axis at
distance 1 (the negative move when the Alien coordinate exceeds the
Captain coordinate, the positive move otherwise), reducing that axis
distance to 0 while the other coordinate of the Alien is unchanged; the
y axis is checked first, so it takes precedence when both distances are
1. -/
theorem win_imminent_pursuit (s : GameState) (r : AlienRand)
    (hsync : distances_synced s)
    (hwin : s.x_distance = 1 ∨ s.y_distance = 1) :
    decide_move s.x_distance s.y_distance s.start_distance r.q = [Strategy.close_to_win] ∧
    (select_move s r).board = s.board ∧
    (s.y_distance = 1 →
      (select_move s r).alien_move =
        (if s.board.alien_y > s.board.cap_y then Moves.DOWN else Moves.UP) ∧
      get_absolute_distance
        (update_character_board s.board (select_move s r).alien_move .ALIEN) .Y_COORD = 0 ∧
      (update_character_board s.board (select_move s r).alien_move .ALIEN).alien_x =
        s.board.alien_x) ∧
    (s.y_distance ≠ 1 → s.x_distance = 1 →
      (select_move s r).alien_move =
        (if s.board.alien_x > s.board.cap_x then Moves.LEFT else Moves.RIGHT) ∧
      get_absolute_distance
        (update_character_board s.board (select_move s r).alien_move .ALIEN) .X_COORD = 0 ∧
      (update_character_board s.board (select_move s r).alien_move .ALIEN).alien_y =
        s.board.alien_y) := by
  have hw : move_conditions_win s.x_distance s.y_distance = true := by
    simp only [move_conditions_win, NumericalConstants.WIN_DIST, Bool.or_eq_true,
      decide_eq_true_eq]
    exact hwin
  have hsel := select_move_win s r hw
  refine ⟨decide_move_win _ _ _ _ hw, ?_, ?_, ?_⟩
  · rw [hsel]
    show (run_strategy .close_to_win s r).board = s.board
    simp only [run_strategy, pursue_captain]
    split_ifs <;> rfl
  · intro hy
    have habs : s.board.cap_y - s.board.alien_y = 1 ∨
        s.board.cap_y - s.board.alien_y = -1 := by
      have h1 : |s.board.cap_y - s.board.alien_y| = 1 := by
        have h2 := hsync.2
        simp only [get_absolute_distance, GameBoard.get] at h2
        rw [← h2, hy]
      exact (abs_eq (show (0 : ℤ) ≤ 1 by norm_num)).mp h1
    have hmv : (select_move s r).alien_move =
        (if s.board.alien_y > s.board.cap_y then Moves.DOWN else Moves.UP) := by
      rw [hsel]
      show (run_strategy .close_to_win s r).alien_move = _
      simp only [run_strategy]
      rw [if_pos (show s.y_distance = NumericalConstants.WIN_DIST from hy)]
      simp [pursue_captain, GameBoard.get]
    refine ⟨hmv, ?_, ?_⟩
    · rw [hmv]
      by_cases hgt : s.board.alien_y > s.board.cap_y
      · rw [if_pos hgt]
        show |s.board.cap_y - (s.board.alien_y - 1)| = 0
        rw [abs_eq_zero]
        rcases habs with h | h <;> omega
      · rw [if_neg hgt]
        show |s.board.cap_y - (s.board.alien_y + 1)| = 0
        rw [abs_eq_zero]
        rcases habs with h | h <;> omega
    · rw [hmv]
      by_cases hgt : s.board.alien_y > s.board.cap_y
      · rw [if_pos hgt]; rfl
      · rw [if_neg hgt]; rfl
  · intro hy hx
    have habs : s.board.cap_x - s.board.alien_x = 1 ∨
        s.board.cap_x - s.board.alien_x = -1 := by
      have h1 : |s.board.cap_x - s.board.alien_x| = 1 := by
        have h2 := hsync.1
        simp only [get_absolute_distance, GameBoard.get] at h2
        rw [← h2, hx]
      exact (abs_eq (show (0 : ℤ) ≤ 1 by norm_num)).mp h1
    have hmv : (select_move s r).alien_move =
        (if s.board.alien_x > s.board.cap_x then Moves.LEFT else Moves.RIGHT) := by
      rw [hsel]
      show (run_strategy .close_to_win s r).alien_move = _
      simp only [run_strategy]
      rw [if_neg (show ¬s.y_distance = NumericalConstants.WIN_DIST from hy),
        if_pos (show s.x_distance = NumericalConstants.WIN_DIST from hx)]
      simp [pursue_captain, GameBoard.get]
    refine ⟨hmv, ?_, ?_⟩
    · rw [hmv]
      by_cases hgt : s.board.alien_x > s.board.cap_x
      · rw [if_pos hgt]
        show |s.board.cap_x - (s.board.alien_x - 1)| = 0
        rw [abs_eq_zero]
        rcases habs with h | h <;> omega
      · rw [if_neg hgt]
        show |s.board.cap_x - (s.board.alien_x + 1)| = 0
        rw [abs_eq_zero]
        rcases habs with h | h <;> omega
    · rw [hmv]
      by_cases hgt : s.board.alien_x > s.board.cap_x
      · rw [if_pos hgt]; rfl
      · rw [if_neg hgt]; rfl

/-- Witness for C2: Captain at (0, 0) and Alien at (0, 1) give the
deterministic move Down. -/
theorem win_imminent_pursuit_witness :
    distances_synced stateC2 ∧
    (stateC2.x_distance = 1 ∨ stateC2.y_distance = 1) ∧
    (select_move stateC2 rand0).alien_move = Moves.DOWN :=
  ⟨by decide, by decide, by
    have h := (win_imminent_pursuit stateC2 rand0 (by decide) (by decide)).2.2.1 (by decide)
    rw [h.1]
    decide⟩

/-- C3: the match is over exactly when a distance is 0; a half-turn is
processed only while both distances are strictly positive; and a cycle
of the main loop reports the end of the match exactly when the minimum
distance after the cycle is 0, so victory is never reported while both
distances are positive and is reported on the first cycle in which the
minimum distance reaches 0. -/
theorem victory_detection (s : GameState) (mv : String) (r : AlienRand)
    (hsync : distances_synced s) :
    (is_game_over s = true ↔ (s.x_distance = 0 ∨ s.y_distance = 0)) ∧
    (is_turn_possible s = false → captain_turn s mv = s ∧ alien_turn s r = s) ∧
    distances_synced (game_cycle s mv r).1 ∧
    ((game_cycle s mv r).2 = true ↔
      min (game_cycle s mv r).1.x_distance (game_cycle s mv r).1.y_distance = 0) := by
  have hc : distances_synced (handle_turns s mv r) := by
    unfold handle_turns
    split_ifs
    · exact alien_turn_synced _ _ (captain_turn_synced _ _ hsync)
    · exact captain_turn_synced _ _ (alien_turn_synced _ _ hsync)
    · exact hsync
  refine ⟨game_over_iff s, ?_, hc, ?_⟩
  · intro h
    constructor
    · simp [captain_turn, h]
    · simp [alien_turn, h]
  · have hnn := synced_nonneg _ hc
    show is_game_over (handle_turns s mv r) = true ↔
      min (handle_turns s mv r).x_distance (handle_turns s mv r).y_distance = 0
    rw [game_over_iff]
    have h1 := hnn.1
    have h2 := hnn.2
    omega

/-- Witness for C3 at a synced mid-game state. -/
theorem victory_detection_witness :
    distances_synced stateC3 ∧
    ((is_game_over stateC3 = true ↔ (stateC3.x_distance = 0 ∨ stateC3.y_distance = 0)) ∧
     (is_turn_possible stateC3 = false →
       captain_turn stateC3 Moves.LEFT = stateC3 ∧ alien_turn stateC3 rand0 = stateC3) ∧
     distances_synced (game_cycle stateC3 Moves.LEFT rand0).1 ∧
     ((game_cycle stateC3 Moves.LEFT rand0).2 = true ↔
       min (game_cycle stateC3 Moves.LEFT rand0).1.x_distance
         (game_cycle stateC3 Moves.LEFT rand0).1.y_distance = 0)) :=
  ⟨by decide, victory_detection stateC3 Moves.LEFT rand0 (by decide)⟩

/-- C6: if the Alien-placement rejection-sampling loop terminates, then
immediately after placement both stored distances are at least the
starting distance, and the starting distance set by
_set_starting_distance is still half the board size (Python floor
division). -/
theorem alien_placement_postcondition (samples : Nat → Int × Int) (fuel i : Nat)
    (s s2 : GameState)
    (hsd : s.start_distance = Int.fdiv s.board_size NumericalConstants.HALF)
    (h : set_alien_position samples fuel i s = some s2) :
    s2.start_distance ≤ s2.x_distance ∧ s2.start_distance ≤ s2.y_distance ∧
    s2.start_distance = Int.fdiv s2.board_size NumericalConstants.HALF := by
  induction fuel generalizing i s with
  | zero =>
    unfold set_alien_position at h
    split at h
    next hv =>
      injection h with h2
      subst h2
      simp only [is_valid_starting_distance, Bool.and_eq_true, decide_eq_true_eq] at hv
      exact ⟨hv.1, hv.2, hsd⟩
    next => exact absurd h (by simp)
  | succ n ih =>
    unfold set_alien_position at h
    split at h
    next hv =>
      injection h with h2
      subst h2
      simp only [is_valid_starting_distance, Bool.and_eq_true, decide_eq_true_eq] at hv
      exact ⟨hv.1, hv.2, hsd⟩
    next =>
      refine ih _ _ ?_ h
      simpa [update_distance, set_random_position] using hsd

/-- Witness for C6: a concrete two-step run of the placement loop. -/
theorem alien_placement_postcondition_witness :
    stateC6.start_distance = Int.fdiv stateC6.board_size NumericalConstants.HALF ∧
    set_alien_position samplesC6 2 0 stateC6 = some stateC6out ∧
    (stateC6out.start_distance ≤ stateC6out.x_distance ∧
     stateC6out.start_distance ≤ stateC6out.y_distance ∧
     stateC6out.start_distance = Int.fdiv stateC6out.board_size NumericalConstants.HALF) :=
  ⟨by decide, by decide,
   alien_placement_postcondition samplesC6 2 0 stateC6 stateC6out (by decide) (by decide)⟩

/-- Every strategy other than _close_to_win records one of the five
defined move strings whenever the recorded Captain move is one of
them. -/
theorem run_strategy_valid (strat : Strategy) (s : GameState) (r : AlienRand)
    (hcap : s.captain_move ∈ movements) (hne : strat ≠ Strategy.close_to_win) :
    (run_strategy strat s r).alien_move ∈ movements := by
  have hcap5 : s.captain_move = "Up" ∨ s.captain_move = "Down" ∨
      s.captain_move = "Left" ∨ s.captain_move = "Right" ∨
      s.captain_move = "Still" := by
    simpa [movements, Moves.UP, Moves.DOWN, Moves.LEFT, Moves.RIGHT, Moves.STILL]
      using hcap
  cases strat with
  | close_to_win => exact absurd rfl hne
  | attack =>
    rcases hcap5 with h | h | h | h | h <;>
      simp [run_strategy, h, Moves.UP, Moves.DOWN, Moves.LEFT, Moves.RIGHT, Moves.STILL] <;>
      first
      | decide
      | exact random_move_mem r.move_index
  | chase =>
    simp only [run_strategy, pursue_captain]
    split_ifs <;> simp [movements, Moves.UP, Moves.DOWN, Moves.LEFT, Moves.RIGHT]
  | random =>
    simpa [run_strategy] using random_move_mem r.move_index
  | flee =>
    by_cases h : s.captain_move = Moves.STILL
    · simpa [run_strategy, h] using random_move_mem r.move_index
    · simpa [run_strategy, h] using hcap
  | freeze_move =>
    simp [run_strategy, movements, Moves.STILL]

/-- The _close_to_win strategy records one of the five defined move
strings whenever some axis distance is exactly 1, which holds whenever
the tier selection can execute it. -/
theorem close_to_win_valid (s : GameState) (r : AlienRand)
    (h : s.x_distance = 1 ∨ s.y_distance = 1) :
    (run_strategy .close_to_win s r).alien_move ∈ movements := by
  simp only [run_strategy, pursue_captain, NumericalConstants.WIN_DIST]
  split_ifs <;>
    first
    | (exfalso; omega)
    | simp [movements, Moves.UP, Moves.DOWN, Moves.LEFT, Moves.RIGHT]

/-- C10: for every strategy the move-selection pipeline can execute, if
the recorded Captain move is one of the five defined move strings, then
after the Alien half-turn decision the recorded Alien move is also one
of the five defined move strings. -/
theorem alien_move_validity (s : GameState) (r : AlienRand)
    (hcap : s.captain_move ∈ movements) :
    (select_move s r).alien_move ∈ movements := by
  unfold select_move
  show (run_strategy
    (choice (decide_move s.x_distance s.y_distance s.start_distance r.q) r.strategy_index)
    s r).alien_move ∈ movements
  unfold decide_move
  split_ifs with h1 h2 h3
  · simp only [alien_moves]
    rw [choice_singleton]
    apply close_to_win_valid
    simpa [move_conditions_win, NumericalConstants.WIN_DIST] using h1
  · unfold select_close_to_lose_move
    split_ifs with hq
    · have hm := choice_mem (alien_moves .NOT_AFRAID_TO_LOSE) r.strategy_index (by decide)
      apply run_strategy_valid _ _ _ hcap
      intro heq
      rw [heq] at hm
      revert hm
      decide
    · have hm := choice_mem (alien_moves .AFRAID_TO_LOSE) r.strategy_index (by decide)
      apply run_strategy_valid _ _ _ hcap
      intro heq
      rw [heq] at hm
      revert hm
      decide
  · have hm := choice_mem (alien_moves .AGGRESSIVE_FLEE) r.strategy_index (by decide)
    apply run_strategy_valid _ _ _ hcap
    intro heq
    rw [heq] at hm
    revert hm
    decide
  · have hm := choice_mem (alien_moves .RANDOM) r.strategy_index (by decide)
    apply run_strategy_valid _ _ _ hcap
    intro heq
    rw [heq] at hm
    revert hm
    decide

/-- Witness for C10 at a state in the aggressive-flee tier with the
recorded Captain move Up. -/
theorem alien_move_validity_witness :
    stateC10.captain_move ∈ movements ∧
    (select_move stateC10 rand0).alien_move ∈ movements :=
  ⟨by decide, alien_move_validity stateC10 rand0 (by decide)⟩

end CosmicStandoff
